import Mathlib

/-!
Shallow embedding of the gochat avatar-resolution code (src/avatar.go) and of
the Room leave handling described in the specification.  Machine state that
the Go code reads implicitly (the result of listing the avatars directory) is
passed explicitly; the fallible Go results `(string, error)` become
`Except AvatarError String`.
-/

/-- A chat user as seen by the avatar code: the two methods of the ChatUser
interface, UniqueID and AvatarURL. -/
structure ChatUser where
  uniqueID : String
  avatarURL : String
deriving DecidableEq

/-- One entry of a directory listing as returned by ioutil.ReadDir: its name
and whether it is a directory. -/
structure FileInfo where
  name : String
  isDir : Bool
deriving DecidableEq

/-- The observable state of the avatars directory: `none` when ReadDir fails
(the directory is unreadable), `some files` for a successful listing. -/
abbrev DirState := Option (List FileInfo)

/-- The only error value the avatar code ever produces: ErrNoAvatarURL. -/
inductive AvatarError where
  | errNoAvatarURL
deriving DecidableEq

/-- A value of the Avatar interface: a GetAvatarURL behaviour, with the
filesystem state passed explicitly. -/
abbrev Avatar := DirState → ChatUser → Except AvatarError String

/-- AuthAvatar.GetAvatarURL (src/avatar.go lines 42-48): return the user's
AvatarURL when it is non-empty, otherwise ErrNoAvatarURL.  It performs no
I/O, so the filesystem state is unused. -/
def authAvatarGetAvatarURL (_fs : DirState) (u : ChatUser) :
    Except AvatarError String :=
  let url := u.avatarURL
  if url ≠ "" then Except.ok url
  else Except.error AvatarError.errNoAvatarURL

/-- GravatarAvatar.GetAvatarURL (src/avatar.go lines 57-59): always returns
the Gravatar URL built from the user's UniqueID.  It performs no I/O. -/
def gravatarAvatarGetAvatarURL (_fs : DirState) (u : ChatUser) :
    Except AvatarError String :=
  Except.ok ("//www.gravatar.com/avatar/" ++ u.uniqueID)

/-- Helper for filepath.Ext: scan the reversed character list of the path,
collecting characters until the first dot (the extension starts there), a
path separator, or the start of the string (no extension). -/
def extRevAux : List Char → List Char → List Char
  | [], _ => []
  | c :: rest, seen =>
    if c = '/' then []
    else if c = '.' then c :: seen
    else extRevAux rest (c :: seen)

/-- filepath.Ext: the suffix of the path starting at the final dot in the
final path element; empty when there is no dot. -/
def filepathExt (path : String) : String :=
  String.mk (extRevAux path.data.reverse [])

/-- strings.TrimSuffix: remove the suffix when the string ends with it,
otherwise return the string unchanged. -/
def trimSuffix (s suffix : String) : String :=
  if suffix.data.isSuffixOf s.data then
    String.mk (s.data.take (s.data.length - suffix.data.length))
  else s

/-- The file name minus its extension, as computed at src/avatar.go line 78:
strings.TrimSuffix(filename, filepath.Ext(filename)). -/
def nameMinusExt (filename : String) : String :=
  trimSuffix filename (filepathExt filename)

/-- The loop of FileSystemAvatar.GetAvatarURL (src/avatar.go lines 73-81)
over the directory listing: skip directories; return the path-based URL for
the first file whose name minus its extension equals the user's UniqueID. -/
def fsAvatarLoop (u : ChatUser) : List FileInfo → Except AvatarError String
  | [] => Except.error AvatarError.errNoAvatarURL
  | file :: rest =>
    if file.isDir then fsAvatarLoop u rest
    else
      let filename := file.name
      if u.uniqueID = nameMinusExt filename then
        Except.ok ("/avatars/" ++ filename)
      else fsAvatarLoop u rest

/-- FileSystemAvatar.GetAvatarURL (src/avatar.go lines 68-83): read the
avatars directory, returning ErrNoAvatarURL when it is unreadable, and scan
the listing. -/
def fileSystemAvatarGetAvatarURL (fs : DirState) (u : ChatUser) :
    Except AvatarError String :=
  match fs with
  | none => Except.error AvatarError.errNoAvatarURL
  | some files => fsAvatarLoop u files

/-- TryAvatars.GetAvatarURL (src/avatar.go lines 26-33): try each strategy
in order, returning the first successful result; ErrNoAvatarURL when every
strategy fails. -/
def tryAvatarsGetAvatarURL : List Avatar → DirState → ChatUser →
    Except AvatarError String
  | [], _, _ => Except.error AvatarError.errNoAvatarURL
  | avatar :: rest, fs, u =>
    match avatar fs u with
    | Except.ok url => Except.ok url
    | Except.error _ => tryAvatarsGetAvatarURL rest fs u

/-- Modelled from the spec: room.go is not among the provided sources, so
the Room's live-connection set and its Leave handling are taken from the
specification, which says Leave removes the connection from the live set if
present and is a no-op (not an error) otherwise.  Connections are identified
by their handles, modelled as natural numbers; the live set is a finite
set of handles. -/
def roomLeave (clients : Finset Nat) (c : Nat) : Finset Nat :=
  clients.erase c

/-- C3: AuthAvatar.GetAvatarURL succeeds with exactly the user's AvatarURL
when that URL is non-empty, and returns ErrNoAvatarURL when it is empty. -/
theorem authAvatar_nonempty_iff :
    (∀ (fs : DirState) (u : ChatUser), u.avatarURL ≠ "" →
      authAvatarGetAvatarURL fs u = Except.ok u.avatarURL) ∧
    (∀ (fs : DirState) (u : ChatUser), u.avatarURL = "" →
      authAvatarGetAvatarURL fs u = Except.error AvatarError.errNoAvatarURL) := by
  constructor <;> intro fs u h <;> simp [authAvatarGetAvatarURL, h]

/-- Witness for C3: a user carrying URL "http://x/y.png" resolves to it. -/
theorem authAvatar_nonempty_iff_witness :
    authAvatarGetAvatarURL none ⟨"u42", "http://x/y.png"⟩ =
      Except.ok "http://x/y.png" :=
  authAvatar_nonempty_iff.1 none ⟨"u42", "http://x/y.png"⟩ (by decide)

/-- C5: with AvatarURL empty, UniqueID "u42" and the avatars listing holding
the regular file u42.png, the chain [AuthAvatar, FileSystemAvatar,
GravatarAvatar] resolves to /avatars/u42.png. -/
theorem chain_example_u42 :
    tryAvatarsGetAvatarURL
      [authAvatarGetAvatarURL, fileSystemAvatarGetAvatarURL,
       gravatarAvatarGetAvatarURL]
      (some [⟨"u42.png", false⟩]) ⟨"u42", ""⟩ =
      Except.ok "/avatars/u42.png" := by
  rfl

/-- C8: on the empty strategy list TryAvatars.GetAvatarURL returns
ErrNoAvatarURL for every user and every filesystem state. -/
theorem tryAvatars_empty_chain (fs : DirState) (u : ChatUser) :
    tryAvatarsGetAvatarURL [] fs u =
      Except.error AvatarError.errNoAvatarURL := rfl

theorem stringAppend_left_cancel (s a b : String) (h : s ++ a = s ++ b) :
    a = b := by
  cases s with
  | mk sd =>
    cases a with
    | mk ad =>
      cases b with
      | mk bd =>
        apply congrArg String.mk
        have hd : sd ++ ad = sd ++ bd := congrArg String.data h
        exact List.append_cancel_left hd

theorem fsAvatarLoop_ok_decomp (u : ChatUser) (files : List FileInfo)
    (url : String) (h : fsAvatarLoop u files = Except.ok url) :
    ∃ pre f post, files = pre ++ f :: post ∧ f.isDir = false ∧
      nameMinusExt f.name = u.uniqueID ∧ url = "/avatars/" ++ f.name ∧
      ∀ g ∈ pre, g.isDir = true ∨ nameMinusExt g.name ≠ u.uniqueID := by
  induction files with
  | nil => exact absurd h (by simp [fsAvatarLoop])
  | cons f rest ih =>
    cases hd : f.isDir with
    | true =>
      simp only [fsAvatarLoop, hd, if_true] at h
      obtain ⟨pre, g, post, hfiles, hgd, hgm, hurl, hpre⟩ := ih h
      refine ⟨f :: pre, g, post, by simp [hfiles], hgd, hgm, hurl, ?_⟩
      intro g2 hg2
      rcases List.mem_cons.mp hg2 with h1 | h1
      · subst h1; exact Or.inl hd
      · exact hpre g2 h1
    | false =>
      by_cases hm : u.uniqueID = nameMinusExt f.name
      · simp only [fsAvatarLoop, hd, hm] at h
        simp only [if_true, Bool.false_eq_true, if_false] at h
        refine ⟨[], f, rest, rfl, hd, hm.symm, ?_, by simp⟩
        injection h with h2
        exact h2.symm
      · simp only [fsAvatarLoop, hd, Bool.false_eq_true, if_false,
          if_neg hm] at h
        obtain ⟨pre, g, post, hfiles, hgd, hgm, hurl, hpre⟩ := ih h
        refine ⟨f :: pre, g, post, by simp [hfiles], hgd, hgm, hurl, ?_⟩
        intro g2 hg2
        rcases List.mem_cons.mp hg2 with h1 | h1
        · subst h1; exact Or.inr (fun hcon => hm hcon.symm)
        · exact hpre g2 h1

theorem fsAvatarLoop_ok_of_match (u : ChatUser) (files : List FileInfo)
    (h : ∃ f ∈ files, f.isDir = false ∧ nameMinusExt f.name = u.uniqueID) :
    ∃ url, fsAvatarLoop u files = Except.ok url := by
  induction files with
  | nil => simp at h
  | cons f rest ih =>
    cases hd : f.isDir with
    | true =>
      simp only [fsAvatarLoop, hd, if_true]
      apply ih
      obtain ⟨g, hg, hgd, hgm⟩ := h
      rcases List.mem_cons.mp hg with h1 | h1
      · subst h1; rw [hd] at hgd; cases hgd
      · exact ⟨g, h1, hgd, hgm⟩
    | false =>
      by_cases hm : u.uniqueID = nameMinusExt f.name
      · exact ⟨"/avatars/" ++ f.name, by simp [fsAvatarLoop, hd, hm]⟩
      · simp only [fsAvatarLoop, hd, Bool.false_eq_true, if_false, if_neg hm]
        apply ih
        obtain ⟨g, hg, hgd, hgm⟩ := h
        rcases List.mem_cons.mp hg with h1 | h1
        · subst h1; exact absurd hgm.symm hm
        · exact ⟨g, h1, hgd, hgm⟩

theorem fsAvatarLoop_filter (u : ChatUser) (files : List FileInfo) :
    fsAvatarLoop u files =
      fsAvatarLoop u (files.filter (fun f => !f.isDir)) := by
  induction files with
  | nil => rfl
  | cons f rest ih =>
    cases hd : f.isDir with
    | true => simp [fsAvatarLoop, List.filter_cons, hd, ih]
    | false => simp [fsAvatarLoop, List.filter_cons, hd, ih]

/-- C1: TryAvatars.GetAvatarURL returns the successful result of the first
strategy in the list that succeeds, and returns ErrNoAvatarURL exactly when
every strategy in the list fails. -/
theorem tryAvatars_first_success_all_fail :
    (∀ (pre post : List Avatar) (s : Avatar) (fs : DirState) (u : ChatUser)
      (url : String),
      (∀ av ∈ pre, ∃ e, av fs u = Except.error e) →
      s fs u = Except.ok url →
      tryAvatarsGetAvatarURL (pre ++ s :: post) fs u = Except.ok url) ∧
    (∀ (a : List Avatar) (fs : DirState) (u : ChatUser),
      tryAvatarsGetAvatarURL a fs u = Except.error AvatarError.errNoAvatarURL
        ↔ ∀ av ∈ a, ∃ e, av fs u = Except.error e) := by
  constructor
  · intro pre post s fs u url hpre hs
    induction pre with
    | nil => simp [tryAvatarsGetAvatarURL, hs]
    | cons p ps ih =>
      obtain ⟨e, he⟩ := hpre p (by simp)
      simp only [List.cons_append, tryAvatarsGetAvatarURL, he]
      exact ih (fun av hav => hpre av (List.mem_cons_of_mem p hav))
  · intro a fs u
    induction a with
    | nil => simp [tryAvatarsGetAvatarURL]
    | cons p ps ih =>
      cases hp : p fs u with
      | ok url =>
        have hstep : tryAvatarsGetAvatarURL (p :: ps) fs u = Except.ok url := by
          simp [tryAvatarsGetAvatarURL, hp]
        rw [hstep, List.forall_mem_cons]
        constructor
        · intro h2; cases h2
        · intro h2
          obtain ⟨e, he⟩ := h2.1
          rw [hp] at he
          cases he
      | error e =>
        have hstep : tryAvatarsGetAvatarURL (p :: ps) fs u =
            tryAvatarsGetAvatarURL ps fs u := by
          simp [tryAvatarsGetAvatarURL, hp]
        rw [hstep, ih, List.forall_mem_cons]
        constructor
        · intro h2; exact ⟨⟨e, hp⟩, h2⟩
        · intro h2; exact h2.2

/-- Witness for C1: the chain [AuthAvatar, GravatarAvatar] on a user with
empty AvatarURL returns GravatarAvatar's result, the first success. -/
theorem tryAvatars_first_success_all_fail_witness :
    tryAvatarsGetAvatarURL
      [authAvatarGetAvatarURL, gravatarAvatarGetAvatarURL] none ⟨"u42", ""⟩ =
      Except.ok "//www.gravatar.com/avatar/u42" :=
  tryAvatars_first_success_all_fail.1 [authAvatarGetAvatarURL] []
    gravatarAvatarGetAvatarURL none ⟨"u42", ""⟩ "//www.gravatar.com/avatar/u42"
    (by
      intro av hav
      rw [List.mem_singleton] at hav
      subst hav
      exact ⟨AvatarError.errNoAvatarURL, rfl⟩)
    rfl

/-- C2: FileSystemAvatar.GetAvatarURL succeeds exactly when the directory
listing holds a regular file whose name minus its extension equals the
user's UniqueID, the returned URL is "/avatars/" followed by such a file's
name, and an unreadable directory yields the ordinary ErrNoAvatarURL. -/
theorem fileSystemAvatar_match_iff :
    (∀ (files : List FileInfo) (u : ChatUser),
      ((∃ url, fileSystemAvatarGetAvatarURL (some files) u = Except.ok url) ↔
        ∃ f ∈ files, f.isDir = false ∧ nameMinusExt f.name = u.uniqueID)) ∧
    (∀ (files : List FileInfo) (u : ChatUser) (url : String),
      fileSystemAvatarGetAvatarURL (some files) u = Except.ok url →
      ∃ f ∈ files, f.isDir = false ∧ nameMinusExt f.name = u.uniqueID ∧
        url = "/avatars/" ++ f.name) ∧
    (∀ u : ChatUser,
      fileSystemAvatarGetAvatarURL none u =
        Except.error AvatarError.errNoAvatarURL) := by
  refine ⟨?_, ?_, fun u => rfl⟩
  · intro files u
    constructor
    · rintro ⟨url, h⟩
      obtain ⟨pre, f, post, hfiles, hfd, hfm, -, -⟩ :=
        fsAvatarLoop_ok_decomp u files url h
      exact ⟨f, by simp [hfiles], hfd, hfm⟩
    · intro h
      exact fsAvatarLoop_ok_of_match u files h
  · intro files u url h
    obtain ⟨pre, f, post, hfiles, hfd, hfm, hurl, -⟩ :=
      fsAvatarLoop_ok_decomp u files url h
    exact ⟨f, by simp [hfiles], hfd, hfm, hurl⟩

/-- Witness for C2: the listing [u42.png] for user u42 yields a matching
regular file and the URL /avatars/u42.png. -/
theorem fileSystemAvatar_match_iff_witness :
    ∃ f ∈ [FileInfo.mk "u42.png" false], f.isDir = false ∧
      nameMinusExt f.name = "u42" ∧
      "/avatars/u42.png" = "/avatars/" ++ f.name :=
  fileSystemAvatar_match_iff.2.1 [⟨"u42.png", false⟩] ⟨"u42", ""⟩
    "/avatars/u42.png" rfl

/-- C4: GravatarAvatar.GetAvatarURL never fails, its URL depends only on the
user's UniqueID, and any TryAvatars chain containing GravatarAvatar never
returns ErrNoAvatarURL. -/
theorem gravatar_never_fails :
    (∀ (fs : DirState) (u : ChatUser),
      gravatarAvatarGetAvatarURL fs u =
        Except.ok ("//www.gravatar.com/avatar/" ++ u.uniqueID)) ∧
    (∀ (fs fs2 : DirState) (u v : ChatUser), u.uniqueID = v.uniqueID →
      gravatarAvatarGetAvatarURL fs u = gravatarAvatarGetAvatarURL fs2 v) ∧
    (∀ (pre post : List Avatar) (fs : DirState) (u : ChatUser),
      tryAvatarsGetAvatarURL (pre ++ gravatarAvatarGetAvatarURL :: post) fs u ≠
        Except.error AvatarError.errNoAvatarURL) := by
  refine ⟨fun _ _ => rfl, ?_, ?_⟩
  · intro fs fs2 u v hid
    simp [gravatarAvatarGetAvatarURL, hid]
  · intro pre post fs u
    induction pre with
    | nil => simp [tryAvatarsGetAvatarURL, gravatarAvatarGetAvatarURL]
    | cons p ps ih =>
      cases hp : p fs u with
      | ok url => simp [tryAvatarsGetAvatarURL, hp]
      | error e =>
        simp only [List.cons_append, tryAvatarsGetAvatarURL, hp]
        exact ih

/-- Witness for C4: two users sharing UniqueID "u42" get the same Gravatar
URL under different filesystem states. -/
theorem gravatar_never_fails_witness :
    gravatarAvatarGetAvatarURL none ⟨"u42", ""⟩ =
      gravatarAvatarGetAvatarURL (some []) ⟨"u42", "http://x"⟩ :=
  gravatar_never_fails.2.1 none (some []) ⟨"u42", ""⟩ ⟨"u42", "http://x"⟩ rfl

/-- C6: avatar resolution is deterministic in the user and the directory
state, and AuthAvatar and GravatarAvatar are independent of the filesystem
state (they perform no I/O). -/
theorem avatar_resolution_stateless :
    (∀ (a : List Avatar) (fs : DirState) (u : ChatUser),
      tryAvatarsGetAvatarURL a fs u = tryAvatarsGetAvatarURL a fs u) ∧
    (∀ (av : Avatar) (fs : DirState) (u : ChatUser), av fs u = av fs u) ∧
    (∀ (fs fs2 : DirState) (u : ChatUser),
      authAvatarGetAvatarURL fs u = authAvatarGetAvatarURL fs2 u ∧
      gravatarAvatarGetAvatarURL fs u = gravatarAvatarGetAvatarURL fs2 u) :=
  ⟨fun _ _ _ => rfl, fun _ _ _ => rfl, fun _ _ _ => ⟨rfl, rfl⟩⟩

/-- C7: Leave is idempotent on the Room's live set, and Leave for a
connection not in the live set leaves the set unchanged. -/
theorem roomLeave_idempotent :
    (∀ (clients : Finset Nat) (c : Nat),
      roomLeave (roomLeave clients c) c = roomLeave clients c) ∧
    (∀ (clients : Finset Nat) (c : Nat), c ∉ clients →
      roomLeave clients c = clients) :=
  ⟨fun _ _ => Finset.erase_idem,
   fun _ _ h => Finset.erase_eq_of_not_mem h⟩

/-- Witness for C7: removing the absent connection 3 from the live set
containing 1 and 2 changes nothing. -/
theorem roomLeave_idempotent_witness :
    roomLeave ({1, 2} : Finset Nat) 3 = ({1, 2} : Finset Nat) :=
  roomLeave_idempotent.2 {1, 2} 3 (by decide)

/-- C9: the Gravatar URL is exactly "//www.gravatar.com/avatar/" followed by
the raw UniqueID, so users with distinct UniqueID values get distinct
results. -/
theorem gravatar_unhashed_injective :
    (∀ (fs : DirState) (u : ChatUser),
      gravatarAvatarGetAvatarURL fs u =
        Except.ok ("//www.gravatar.com/avatar/" ++ u.uniqueID)) ∧
    (∀ (fs fs2 : DirState) (u v : ChatUser), u.uniqueID ≠ v.uniqueID →
      gravatarAvatarGetAvatarURL fs u ≠ gravatarAvatarGetAvatarURL fs2 v) := by
  refine ⟨fun _ _ => rfl, ?_⟩
  intro fs fs2 u v hne heq
  apply hne
  have h2 : "//www.gravatar.com/avatar/" ++ u.uniqueID =
      "//www.gravatar.com/avatar/" ++ v.uniqueID := by
    simpa [gravatarAvatarGetAvatarURL] using heq
  exact stringAppend_left_cancel "//www.gravatar.com/avatar/"
    u.uniqueID v.uniqueID h2

/-- Witness for C9: users "a" and "b" receive distinct Gravatar URLs. -/
theorem gravatar_unhashed_injective_witness :
    gravatarAvatarGetAvatarURL none ⟨"a", ""⟩ ≠
      gravatarAvatarGetAvatarURL (some []) ⟨"b", ""⟩ :=
  gravatar_unhashed_injective.2 none (some []) ⟨"a", ""⟩ ⟨"b", ""⟩ (by decide)

/-- C10: FileSystemAvatar.GetAvatarURL ignores directory entries that are
directories — its result equals the result on the listing with directories
filtered out — and a successful result comes from the first regular file in
listing order whose name minus extension matches; every earlier entry is a
directory or does not match. -/
theorem fileSystemAvatar_skips_dirs_first_match :
    (∀ (files : List FileInfo) (u : ChatUser),
      fileSystemAvatarGetAvatarURL (some files) u =
        fileSystemAvatarGetAvatarURL
          (some (files.filter (fun f => !f.isDir))) u) ∧
    (∀ (files : List FileInfo) (u : ChatUser) (url : String),
      fileSystemAvatarGetAvatarURL (some files) u = Except.ok url →
      ∃ pre f post, files = pre ++ f :: post ∧ f.isDir = false ∧
        nameMinusExt f.name = u.uniqueID ∧ url = "/avatars/" ++ f.name ∧
        ∀ g ∈ pre, g.isDir = true ∨ nameMinusExt g.name ≠ u.uniqueID) := by
  constructor
  · intro files u
    exact fsAvatarLoop_filter u files
  · intro files u url h
    exact fsAvatarLoop_ok_decomp u files url h

/-- Witness for C10: a directory named u42.png is skipped and the regular
file u42.jpg further down the listing is the match. -/
theorem fileSystemAvatar_skips_dirs_first_match_witness :
    ∃ pre f post,
      [FileInfo.mk "u42.png" true, FileInfo.mk "u42.jpg" false] =
        pre ++ f :: post ∧ f.isDir = false ∧ nameMinusExt f.name = "u42" ∧
      "/avatars/u42.jpg" = "/avatars/" ++ f.name ∧
      ∀ g ∈ pre, g.isDir = true ∨ nameMinusExt g.name ≠ "u42" :=
  fileSystemAvatar_skips_dirs_first_match.2
    [⟨"u42.png", true⟩, ⟨"u42.jpg", false⟩] ⟨"u42", ""⟩ "/avatars/u42.jpg" rfl
